import Mathlib

/-!
Pac-Man project (CSSE2010): persistence, score and power-state controller

A shallow embedding of `src/project.c`, `src/score.c` and the declarations of
`src/game.h`.

* C unsigned integers are natural numbers; an operation that can leave the
  width of its destination is reduced modulo `2 ^ w` at that place.
* The file-scope variables of the program form the record `Ram`; the EEPROM
  cells declared with `EEMEM` form the record `Eeprom`.
* `eeprom_write_block` / `eeprom_read_block` copy a number of *bytes*; arrays of
  `uint32_t` are laid out least significant byte first (AVR is little endian).
* `game.c` is not among the source files.  Its functions are taken as the
  parameter `GameOps`; its file-scope data is the field `Ram.game_private`.
* Hardware (ADC, buttons, serial port, clock) is an input of each loop pass.
-/

namespace Pacman

/-! ## Constants of `game.h` -/

/-- Rows of the game field, `#define FIELD_HEIGHT 31`. -/
def FIELD_HEIGHT : Nat := 31

/-- Number of ghosts, `#define NUM_GHOSTS 4`. -/
def NUM_GHOSTS : Nat := 4

/-- Largest number of lives, `#define MAX_LIVES (3)`. -/
def MAX_LIVES : Nat := 3

def DIRN_LEFT : Nat := 0
def DIRN_UP : Nat := 1
def DIRN_RIGHT : Nat := 2
def DIRN_DOWN : Nat := 3

def CELL_IS_WALL : Int := -2

/-- Number of values of a `uint8_t`. -/
def U8 : Nat := 256

/-- Number of values of a `uint16_t`. -/
def U16 : Nat := 65536

/-- Number of values of a `uint32_t`. -/
def U32 : Nat := 4294967296

/-! ## Program state -/

/-- The file-scope variables of the program, as seen from `project.c`
(`project.c` lines 39-46, `score.c` lines 9-10, `game.h` lines 47-76). -/
structure Ram where
  /-- Fields of `project.c`: `uint16_t value, resting_x, resting_y, x, y`. -/
  value : Nat
  resting_x : Nat
  resting_y : Nat
  x : Nat
  y : Nat
  /-- The `uint8_t x_or_y` selector of the ADC channel. -/
  x_or_y : Nat
  /-- The `int8_t joystick_rest` flag. -/
  joystick_rest : Nat
  /-- The `uint32_t special_time_remaining`. -/
  special_time_remaining : Nat
  /-- Fields of `score.c`: `uint32_t score, highscore`. -/
  score : Nat
  highscore : Nat
  /-- Fields of `game.h`: `uint8_t lives`, `uint32_t powered_period`. -/
  lives : Nat
  powered_period : Nat
  power_active : Nat
  ghost_kills : Nat
  pacman_x : Nat
  pacman_y : Nat
  pacman_direction : Nat
  /-- Arrays `uint8_t [NUM_GHOSTS]`. -/
  ghost_x : List Nat
  ghost_y : List Nat
  ghost_direction : List Nat
  /-- Arrays `uint32_t [FIELD_HEIGHT]`, one bit per column. -/
  pacdots : List Nat
  power_pellets : List Nat
  ghost_original_colours : List Nat
  ghost_colours : List Nat
  disabled_ghosts : List Nat
  /-- File-scope data of `game.c`, never touched by `project.c`. -/
  game_private : List Nat
  deriving DecidableEq, Repr

/-- The EEPROM cells of `project.c` lines 51-64. -/
structure Eeprom where
  IsWritten : Nat
  written_pacman_x : Nat
  written_pacman_y : Nat
  written_pacman_direction : Nat
  written_score : Nat
  written_highscore : Nat
  written_lives : Nat
  written_power_active : Nat
  written_time_remaining : Nat
  written_ghost_x : List Nat
  written_ghost_y : List Nat
  written_ghost_direction : List Nat
  written_pacdots : List Nat
  written_power_pellets : List Nat
  deriving DecidableEq, Repr

/-- Every element of a list is below a bound. -/
def allBelow (b : Nat) (xs : List Nat) : Bool := xs.all (fun v => decide (v < b))

/-- The values of `Ram` fit the C types of the variables. -/
def Ram.WF (s : Ram) : Prop :=
  s.value < U16 ∧ s.resting_x < U16 ∧ s.resting_y < U16 ∧ s.x < U16 ∧ s.y < U16 ∧
  s.x_or_y < U8 ∧ s.joystick_rest < U8 ∧ s.special_time_remaining < U32 ∧
  s.score < U32 ∧ s.highscore < U32 ∧ s.lives < U8 ∧ s.powered_period < U32 ∧
  s.power_active < U8 ∧ s.ghost_kills < U8 ∧
  s.pacman_x < U8 ∧ s.pacman_y < U8 ∧ s.pacman_direction < U8 ∧
  (s.ghost_x.length = NUM_GHOSTS ∧ allBelow U8 s.ghost_x = true) ∧
  (s.ghost_y.length = NUM_GHOSTS ∧ allBelow U8 s.ghost_y = true) ∧
  (s.ghost_direction.length = NUM_GHOSTS ∧ allBelow U8 s.ghost_direction = true) ∧
  (s.pacdots.length = FIELD_HEIGHT ∧ allBelow U32 s.pacdots = true) ∧
  (s.power_pellets.length = FIELD_HEIGHT ∧ allBelow U32 s.power_pellets = true) ∧
  (s.ghost_original_colours.length = NUM_GHOSTS ∧
    allBelow U8 s.ghost_original_colours = true) ∧
  (s.ghost_colours.length = NUM_GHOSTS ∧ allBelow U8 s.ghost_colours = true) ∧
  (s.disabled_ghosts.length = NUM_GHOSTS ∧ allBelow U8 s.disabled_ghosts = true)

instance (s : Ram) : Decidable s.WF := by
  unfold Ram.WF; infer_instance

/-- The values of `Eeprom` fit the C types of the cells. -/
def Eeprom.WF (e : Eeprom) : Prop :=
  e.IsWritten < U8 ∧ e.written_pacman_x < U16 ∧ e.written_pacman_y < U16 ∧
  e.written_pacman_direction < U8 ∧ e.written_score < U32 ∧
  e.written_highscore < U32 ∧ e.written_lives < U8 ∧
  e.written_power_active < U8 ∧ e.written_time_remaining < U8 ∧
  (e.written_ghost_x.length = NUM_GHOSTS ∧ allBelow U8 e.written_ghost_x = true) ∧
  (e.written_ghost_y.length = NUM_GHOSTS ∧ allBelow U8 e.written_ghost_y = true) ∧
  (e.written_ghost_direction.length = NUM_GHOSTS ∧
    allBelow U8 e.written_ghost_direction = true) ∧
  (e.written_pacdots.length = FIELD_HEIGHT ∧ allBelow U32 e.written_pacdots = true) ∧
  (e.written_power_pellets.length = FIELD_HEIGHT ∧
    allBelow U32 e.written_power_pellets = true)

instance (e : Eeprom) : Decidable e.WF := by
  unfold Eeprom.WF; infer_instance

/-! ## `score.c` -/

/-- Function `init_score`: `score = 0;`. -/
def init_score (s : Ram) : Ram := { s with score := 0 }

/-- Function `add_to_score(uint16_t value)`: `score += value;` on a `uint32_t`. -/
def add_to_score (value : Nat) (s : Ram) : Ram :=
  { s with score := (s.score + value) % U32 }

/-- Function `get_score`. -/
def get_score (s : Ram) : Nat := s.score

/-- Function `get_highscore`. -/
def get_highscore (s : Ram) : Nat := s.highscore

/-- Function `update_highscore`: `if (score > highscore) highscore = score;`. -/
def update_highscore (s : Ram) : Ram :=
  if s.score > s.highscore then { s with highscore := s.score } else s

/-! ## Byte images of arrays -/

/-- The four bytes of a `uint32_t`, least significant first. -/
def bytesOfU32 (w : Nat) : List Nat :=
  [w % 256, w / 256 % 256, w / 65536 % 256, w / 16777216 % 256]

/-- The byte image of an array of `uint32_t`. -/
def bytesOfWords : List Nat → List Nat
  | [] => []
  | w :: ws => bytesOfU32 w ++ bytesOfWords ws

/-- The array of `uint32_t` held by a byte image. -/
def wordsOfBytes : List Nat → List Nat
  | a :: b :: c :: d :: rest =>
      (a + 256 * b + 65536 * c + 16777216 * d) :: wordsOfBytes rest
  | _ => []

/-- Copy the first `n` bytes of `src` over the first `n` bytes of `dst`: the
effect on the destination of `eeprom_write_block(src, dst, n)` and of
`eeprom_read_block(dst, src, n)`. -/
def blockCopy (src dst : List Nat) (n : Nat) : List Nat :=
  src.take n ++ dst.drop n

/-! ## `save` and `load` (`project.c` lines 212-247) -/

/-- Function `save`: writes the record; the RAM is not modified. -/
def save (s : Ram) (e : Eeprom) : Eeprom :=
  { IsWritten := 1
    written_pacman_x := s.pacman_x % U16
    written_pacman_y := s.pacman_y % U16
    written_pacman_direction := s.pacman_direction % U8
    written_lives := s.lives % U8
    written_power_active := s.power_active % U8
    written_time_remaining := s.special_time_remaining % U8
    written_score := s.score % U32
    written_highscore := s.highscore % U32
    written_ghost_x := blockCopy s.ghost_x e.written_ghost_x NUM_GHOSTS
    written_ghost_y := blockCopy s.ghost_y e.written_ghost_y NUM_GHOSTS
    written_ghost_direction :=
      blockCopy s.ghost_direction e.written_ghost_direction NUM_GHOSTS
    written_pacdots :=
      wordsOfBytes
        (blockCopy (bytesOfWords s.pacdots) (bytesOfWords e.written_pacdots) FIELD_HEIGHT)
    written_power_pellets :=
      wordsOfBytes
        (blockCopy (bytesOfWords s.power_pellets) (bytesOfWords e.written_power_pellets)
          FIELD_HEIGHT) }

/-- Function `load`: restores the record when the write flag reads as 1. -/
def load (e : Eeprom) (s : Ram) : Ram :=
  if e.IsWritten = 1 then
    { s with
      pacman_x := e.written_pacman_x % U8
      pacman_y := e.written_pacman_y % U8
      pacman_direction := e.written_pacman_direction % U8
      lives := e.written_lives % U8
      power_active := e.written_power_active % U8
      special_time_remaining := e.written_time_remaining % U32
      score := e.written_score % U32
      highscore := e.written_highscore % U32
      ghost_x := blockCopy e.written_ghost_x s.ghost_x NUM_GHOSTS
      ghost_y := blockCopy e.written_ghost_y s.ghost_y NUM_GHOSTS
      ghost_direction := blockCopy e.written_ghost_direction s.ghost_direction NUM_GHOSTS
      pacdots :=
        wordsOfBytes
          (blockCopy (bytesOfWords e.written_pacdots) (bytesOfWords s.pacdots) FIELD_HEIGHT)
      power_pellets :=
        wordsOfBytes
          (blockCopy (bytesOfWords e.written_power_pellets) (bytesOfWords s.power_pellets)
            FIELD_HEIGHT) }
  else s

/-- Function `save_data_available` (`project.c` lines 86-93): the text printed
at the cursor position (35, 5); the flag byte is tested for being non-zero. -/
def save_data_available (e : Eeprom) : String :=
  if e.IsWritten ≠ 0 then "Save Data Available" else "Save Data Not Available"

/-! ## The game module `game.c` -/

/-- The functions declared in `game.h` and defined in `game.c`; they may read
and write any variable of the program. -/
structure GameOps where
  initialise_game : Ram → Ram
  initialise_game_level : Ram → Ram
  move_pacman : Ram → Ram
  change_pacman_direction : Nat → Ram → Ram
  move_ghost : Nat → Ram → Ram
  is_game_over : Ram → Bool
  is_level_complete : Ram → Bool
  /-- Arguments: state, `x`, `y`, `direction`. -/
  what_is_in_dirn : Ram → Nat → Nat → Nat → Int

/-! ## `project.c`: new game and joystick -/

/-- Function `get_resting_voltage`, with the value read from the ADC as an input. -/
def get_resting_voltage (adc : Nat) (s : Ram) : Ram :=
  let s1 := { s with value := adc % U16 }
  let s2 := if s1.x_or_y = 0 then { s1 with resting_x := s1.value }
            else { s1 with resting_y := s1.value }
  { s2 with x_or_y := Nat.xor s2.x_or_y 1 }

/-- Function `new_game` (`project.c` lines 156-171); `adc` holds the two ADC readings. -/
def new_game (g : GameOps) (adc : Nat × Nat) (s : Ram) : Ram :=
  get_resting_voltage adc.2 (get_resting_voltage adc.1 (init_score (g.initialise_game s)))

/-- Function `valid_direction` (`project.c` lines 173-210). -/
def valid_direction (g : GameOps) (s0 : Ram) : Ram :=
  let s := { s0 with joystick_rest := 0 }
  if s.x > s.resting_x then
    if g.what_is_in_dirn s s.pacman_x s.pacman_y DIRN_RIGHT = CELL_IS_WALL then s
    else g.change_pacman_direction DIRN_RIGHT s
  else if s.x < s.resting_x then
    if g.what_is_in_dirn s s.pacman_x s.pacman_y DIRN_LEFT = CELL_IS_WALL then s
    else g.change_pacman_direction DIRN_LEFT s
  else
    if s.y > s.resting_y then
      if g.what_is_in_dirn s s.pacman_x s.pacman_y DIRN_UP = CELL_IS_WALL then s
      else g.change_pacman_direction DIRN_RIGHT s
    else if s.y < s.resting_y then
      if g.what_is_in_dirn s s.pacman_x s.pacman_y DIRN_DOWN = CELL_IS_WALL then s
      else g.change_pacman_direction DIRN_DOWN s
    else { s with joystick_rest := 1 }

/-- The calls that `valid_direction` makes into `game.c`: the direction given
to `what_is_in_dirn` and the direction given to `change_pacman_direction`, each
`none` when the call is not made. -/
structure DirectionCalls where
  queried : Option Nat
  requested : Option Nat
  deriving DecidableEq, Repr

/-- The calls made by `valid_direction` (`project.c` lines 173-210), branch by
branch as in the source. -/
def valid_direction_calls (g : GameOps) (s0 : Ram) : DirectionCalls :=
  let s := { s0 with joystick_rest := 0 }
  if s.x > s.resting_x then
    if g.what_is_in_dirn s s.pacman_x s.pacman_y DIRN_RIGHT = CELL_IS_WALL then
      { queried := some DIRN_RIGHT, requested := none }
    else { queried := some DIRN_RIGHT, requested := some DIRN_RIGHT }
  else if s.x < s.resting_x then
    if g.what_is_in_dirn s s.pacman_x s.pacman_y DIRN_LEFT = CELL_IS_WALL then
      { queried := some DIRN_LEFT, requested := none }
    else { queried := some DIRN_LEFT, requested := some DIRN_LEFT }
  else
    if s.y > s.resting_y then
      if g.what_is_in_dirn s s.pacman_x s.pacman_y DIRN_UP = CELL_IS_WALL then
        { queried := some DIRN_UP, requested := none }
      else { queried := some DIRN_UP, requested := some DIRN_RIGHT }
    else if s.y < s.resting_y then
      if g.what_is_in_dirn s s.pacman_x s.pacman_y DIRN_DOWN = CELL_IS_WALL then
        { queried := some DIRN_DOWN, requested := none }
      else { queried := some DIRN_DOWN, requested := some DIRN_DOWN }
    else { queried := none, requested := none }

/-! ## `project.c`: serial input while paused -/

/-- What the environment supplies to one call of `process_serial_input` and to
the clock reading that follows it in the pause loop. -/
structure PauseInput where
  /-- The character read when `serial_input_available()`, if any. -/
  serial : Option Char
  /-- ADC readings used if `new_game()` runs. -/
  adc_new : Nat × Nat
  /-- Value of `get_current_time()` after the call. -/
  time : Nat

/-- The escape character, `#define ESCAPE_CHAR 27`. -/
def ESCAPE_CHAR : Char := Char.ofNat 27

/-- Function `process_serial_input` (`project.c` lines 249-298): returns 0 to leave the
pause.  Its local escape counter starts at 0 on every call, so only the first
and the last branch of the escape handling can be taken; `none` stands for the
value `-1` of `serial_input`. -/
def process_serial_input (g : GameOps) (i : PauseInput) (s : Ram) (e : Eeprom) :
    Nat × Ram × Eeprom :=
  let serial_input : Option Char :=
    match i.serial with
    | none => some 'a'
    | some c => if c = ESCAPE_CHAR then none else some c
  if serial_input = some 'p' ∨ serial_input = some 'P' then (0, s, e)
  else if serial_input = some 'n' ∨ serial_input = some 'N' then (1, new_game g i.adc_new s, e)
  else if serial_input = some 's' ∨ serial_input = some 'S' then (1, s, save s e)
  else if serial_input = some 'o' ∨ serial_input = some 'O' then (1, load e s, e)
  else (1, s, e)

/-! ## `project.c`: `play_game` -/

/-- The local variables of `play_game` that live across loop passes. -/
structure Locals where
  digit : Nat
  current_time : Nat
  pacman_last_move_time : Nat
  ghost0_last_move_time : Nat
  ghost1_last_move_time : Nat
  ghost2_last_move_time : Nat
  ghost3_last_move_time : Nat
  characters_into_escape_sequence : Nat
  deriving DecidableEq, Repr

/-- The chained assignment of one clock reading to the five move timers. -/
def set_move_times (t : Nat) (l : Locals) : Locals :=
  { l with
    pacman_last_move_time := t
    ghost0_last_move_time := t
    ghost1_last_move_time := t
    ghost2_last_move_time := t
    ghost3_last_move_time := t }

/-- The power-state block of `play_game` (lines 347-376), evaluated with the
loop variable `current_time`.  The writes to the display ports are not part of
the state; `ceil` is applied to an integer and is the identity. -/
def power_check (current_time : Nat) (digit : Nat) (s : Ram) : Nat × Ram :=
  if s.power_active ≠ 0 then
    if (s.powered_period + 15) % U32 < current_time then
      let c0 := s.ghost_colours.set 0 (s.ghost_original_colours.getD 0 0)
      let c1 := c0.set 1 (s.ghost_original_colours.getD 1 0)
      let c2 := c1.set 2 (s.ghost_original_colours.getD 2 0)
      let c3 := c2.set 3 (s.ghost_original_colours.getD 3 0)
      (digit, { s with
                power_active := 0
                ghost_colours := c3
                ghost_kills := 0
                special_time_remaining := 0 })
    else
      let str := (15 + U32 - (current_time + U32 - s.powered_period) % U32) % U32
      let l_digit := (str / 10) % 10
      let digit1 := if l_digit = 0 then 0 else (1 + U8 - digit) % U8
      (digit1, { s with special_time_remaining := str })
  else (digit, s)

/-- The pause loop of `play_game` (lines 457-461) over the inputs received
while paused; it ends when `process_serial_input` returns 0. -/
def pause_loop (g : GameOps) : List PauseInput → Locals → Ram → Eeprom → Locals × Ram × Eeprom
  | [], l, s, e => (l, s, e)
  | i :: rest, l, s, e =>
    let r := process_serial_input g i s e
    let l1 := set_move_times i.time l
    if r.1 = 0 then (l1, r.2.1, r.2.2) else pause_loop g rest l1 r.2.1 r.2.2

/-- An entity moved by the movement section. -/
inductive Mover where
  | pacman : Mover
  | ghost : Nat → Mover
  deriving DecidableEq, Repr

/-- The timer test `current_time >= last + period` on `uint32_t`. -/
def due (now last period : Nat) : Bool := decide (now ≥ (last + period) % U32)

/-- State of the movement section: locals, variables, and the moves invoked so
far, each with the value of `is_game_over()` right after it. -/
abbrev MoveState := Locals × Ram × List (Mover × Bool)

/-- The pac-man block of the movement section (lines 473-485): when the game
is not over and 400 ms have passed, `move_pacman()`; if that completes the level,
`initialise_game_level()` and a fresh clock reading for all timers. -/
def pacman_block (g : GameOps) (now level_time : Nat) (r : MoveState) : MoveState :=
  if (!g.is_game_over r.2.1 && due now r.1.pacman_last_move_time 400) = true then
    let s := g.move_pacman r.2.1
    let l := { r.1 with pacman_last_move_time := now }
    if g.is_level_complete s = true then
      (set_move_times level_time l, g.initialise_game_level s,
        r.2.2 ++ [(Mover.pacman, g.is_game_over s)])
    else (l, s, r.2.2 ++ [(Mover.pacman, g.is_game_over s)])
  else r

/-- One ghost block of the movement section (lines 487-513): ghost `n` with the
timer read by `last`, written by `setLast`, and its period. -/
def ghost_block (g : GameOps) (now n : Nat) (last : Locals → Nat) (period : Nat)
    (setLast : Locals → Locals) (r : MoveState) : MoveState :=
  if (!g.is_game_over r.2.1 && due now (last r.1) period) = true then
    let s := g.move_ghost n r.2.1
    (setLast r.1, s, r.2.2 ++ [(Mover.ghost n, g.is_game_over s)])
  else r

/-- The movement section of `play_game` (lines 472-513).  `now` is the clock
reading of line 472 and `level_time` the one of line 483. -/
def movement (g : GameOps) (now level_time : Nat) (l0 : Locals) (s0 : Ram) : MoveState :=
  let r0 : MoveState := pacman_block g now level_time ({ l0 with current_time := now }, s0, [])
  let r1 := ghost_block g now 0 Locals.ghost0_last_move_time 400
    (fun l => { l with ghost0_last_move_time := now }) r0
  let r2 := ghost_block g now 1 Locals.ghost1_last_move_time 500
    (fun l => { l with ghost1_last_move_time := now }) r1
  let r3 := ghost_block g now 2 Locals.ghost2_last_move_time 550
    (fun l => { l with ghost2_last_move_time := now }) r2
  ghost_block g now 3 Locals.ghost3_last_move_time 600
    (fun l => { l with ghost3_last_move_time := now }) r3

/-- What the environment supplies to one pass of the loop of `play_game`. -/
structure PassInput where
  /-- Value of `button_pushed()`: -1 for no button, else 0 to 3. -/
  button : Int
  /-- The value read from the ADC. -/
  adc : Nat
  /-- The character read when `serial_input_available()`, if any. -/
  serial : Option Char
  /-- ADC readings used if `new_game()` runs. -/
  adc_new : Nat × Nat
  /-- Inputs received while paused, if the pause is entered. -/
  pause : List PauseInput
  /-- Value of `get_current_time()` at line 472. -/
  now : Nat
  /-- Value of `get_current_time()` at line 483. -/
  level_time : Nat

/-- The value of `NO_BUTTON_PUSHED`. -/
def NO_BUTTON_PUSHED : Int := -1

/-- Reading of the serial port in one pass (lines 406-433): the new escape
counter, `serial_input` and `escape_sequence_char` (`none` for `-1`). -/
def read_serial (i : PassInput) (count : Nat) : Nat × Option Char × Option Char :=
  if i.button = NO_BUTTON_PUSHED then
    match i.serial with
    | none => (count, none, none)
    | some c =>
      if count = 0 ∧ c = ESCAPE_CHAR then (count + 1, none, none)
      else if count = 1 ∧ c = '[' then (count + 1, none, none)
      else if count = 2 then (0, none, some c)
      else (0, some c, none)
  else (count, none, none)

/-- One pass of the loop body of `play_game` (lines 345-513). -/
def play_pass (g : GameOps) (i : PassInput) (l0 : Locals) (s0 : Ram) (e0 : Eeprom) :
    Locals × Ram × Eeprom :=
  let s1 := update_highscore s0
  let pc := power_check l0.current_time l0.digit s1
  let l1 := { l0 with digit := pc.1 }
  let s2 := pc.2
  -- joystick sampling
  let s3 := { s2 with value := i.adc % U16 }
  let s4 := if s3.x_or_y = 0 then { s3 with x := s3.value } else { s3 with y := s3.value }
  let s5 := { s4 with x_or_y := Nat.xor s4.x_or_y 1 }
  let s6 := valid_direction g s5
  -- serial input
  let rd := read_serial i l1.characters_into_escape_sequence
  let l2 := { l1 with characters_into_escape_sequence := rd.1 }
  let serial_input := rd.2.1
  let escape_sequence_char := rd.2.2
  let button := i.button
  let rest : Bool := decide (s6.joystick_rest ≠ 0)
  -- input processing
  let r : Locals × Ram × Eeprom :=
    if (button = 3 ∨ escape_sequence_char = some 'D') ∧ rest = true then
      (l2, g.change_pacman_direction DIRN_LEFT s6, e0)
    else if (button = 2 ∨ escape_sequence_char = some 'A') ∧ rest = true then
      (l2, g.change_pacman_direction DIRN_UP s6, e0)
    else if (button = 1 ∨ escape_sequence_char = some 'B') ∧ rest = true then
      (l2, g.change_pacman_direction DIRN_DOWN s6, e0)
    else if (button = 0 ∨ escape_sequence_char = some 'C') ∧ rest = true then
      (l2, g.change_pacman_direction DIRN_RIGHT s6, e0)
    else if serial_input = some 'n' ∨ serial_input = some 'N' then
      (l2, new_game g i.adc_new s6, e0)
    else if serial_input = some 'p' ∨ serial_input = some 'P' then
      pause_loop g i.pause l2 s6 e0
    else if serial_input = some 's' ∨ serial_input = some 'S' then
      (l2, s6, save s6 e0)
    else if serial_input = some 'o' ∨ serial_input = some 'O' then
      (l2, load e0 s6, e0)
    else (l2, s6, e0)
  let m := movement g i.now i.level_time r.1 r.2.1
  (m.1, m.2.1, r.2.2)

/-- The loop `while(!is_game_over())` of `play_game` over the inputs of its
passes; `none` when the inputs end before the game is over. -/
def play_loop (g : GameOps) : List PassInput → Locals → Ram → Eeprom → Option (Ram × Eeprom)
  | [], _, s, e => if g.is_game_over s = true then some (s, e) else none
  | i :: rest, l, s, e =>
    if g.is_game_over s = true then some (s, e)
    else
      let r := play_pass g i l s e
      play_loop g rest r.1 r.2.1 r.2.2

/-- Function `play_game` (lines 311-516); `start` is the first clock reading. -/
def play_game (g : GameOps) (start : Nat) (passes : List PassInput) (s : Ram) (e : Eeprom) :
    Option (Ram × Eeprom) :=
  play_loop g passes
    { digit := 0
      current_time := start
      pacman_last_move_time := start
      ghost0_last_move_time := start
      ghost1_last_move_time := start
      ghost2_last_move_time := start
      ghost3_last_move_time := start
      characters_into_escape_sequence := 0 } s e

/-- Function `handle_game_over` (lines 534-543): after the button wait, `new_game()`. -/
def handle_game_over (g : GameOps) (adc : Nat × Nat) (s : Ram) : Ram := new_game g adc s

/-! ## Operations on the score pair -/

/-- The operations that can touch the high score. -/
inductive ScoreOp where
  | init_score : ScoreOp
  | add_to_score : Nat → ScoreOp
  | update_highscore : ScoreOp
  | save : ScoreOp
  | load : ScoreOp
  deriving DecidableEq, Repr

/-- Run one operation on the variables and the EEPROM. -/
def ScoreOp.run : ScoreOp → Ram × Eeprom → Ram × Eeprom
  | ScoreOp.init_score, (s, e) => (Pacman.init_score s, e)
  | ScoreOp.add_to_score v, (s, e) => (Pacman.add_to_score v s, e)
  | ScoreOp.update_highscore, (s, e) => (Pacman.update_highscore s, e)
  | ScoreOp.save, (s, e) => (s, Pacman.save s e)
  | ScoreOp.load, (s, e) => (Pacman.load e s, e)

/-- Whether the operation is `load`. -/
def ScoreOp.isLoad : ScoreOp → Bool
  | ScoreOp.load => true
  | _ => false

/-- Run `save()` and then `load()` into another set of variables. -/
def save_then_load (s : Ram) (e : Eeprom) (s' : Ram) : Ram := load (save s e) s'

/-! ## Sample states -/

/-- All variables zero, arrays of their declared lengths. -/
def zeroRam : Ram :=
  { value := 0, resting_x := 0, resting_y := 0, x := 0, y := 0, x_or_y := 0
    joystick_rest := 0, special_time_remaining := 0, score := 0, highscore := 0
    lives := 0, powered_period := 0, power_active := 0, ghost_kills := 0
    pacman_x := 0, pacman_y := 0, pacman_direction := 0
    ghost_x := [0, 0, 0, 0], ghost_y := [0, 0, 0, 0], ghost_direction := [0, 0, 0, 0]
    pacdots := List.replicate 31 0, power_pellets := List.replicate 31 0
    ghost_original_colours := [0, 0, 0, 0], ghost_colours := [0, 0, 0, 0]
    disabled_ghosts := [0, 0, 0, 0], game_private := [] }

/-- An EEPROM whose cells are all zero. -/
def zeroEeprom : Eeprom :=
  { IsWritten := 0, written_pacman_x := 0, written_pacman_y := 0
    written_pacman_direction := 0, written_score := 0, written_highscore := 0
    written_lives := 0, written_power_active := 0, written_time_remaining := 0
    written_ghost_x := [0, 0, 0, 0], written_ghost_y := [0, 0, 0, 0]
    written_ghost_direction := [0, 0, 0, 0]
    written_pacdots := List.replicate 31 0, written_power_pellets := List.replicate 31 0 }

/-- A game in progress: every row holds dots in all 31 columns and power items
in columns 0 and 30. -/
def midGame : Ram :=
  { zeroRam with
    resting_x := 512, resting_y := 512, x := 512, y := 512, joystick_rest := 1
    score := 120, highscore := 450, lives := 2, power_active := 1, powered_period := 7
    special_time_remaining := 9, ghost_kills := 1
    pacman_x := 15, pacman_y := 23, pacman_direction := 2
    ghost_x := [14, 15, 16, 17], ghost_y := [11, 12, 13, 14], ghost_direction := [0, 1, 2, 3]
    pacdots := List.replicate 31 2147483647
    power_pellets := List.replicate 31 1073741825
    ghost_original_colours := [31, 35, 36, 32], ghost_colours := [34, 34, 34, 34] }

/-- A record that holds data but whose write flag is not set. -/
def staleEeprom : Eeprom :=
  { save midGame zeroEeprom with IsWritten := 0 }

/-! ## Lemmas on block copies -/

theorem blockCopy_roundtrip (a b c : List Nat) (n : Nat)
    (ha : a.length = n) (hc : c.length = n) :
    blockCopy (blockCopy a b n) c n = a := by
  subst ha
  simp [blockCopy, hc]

/-! ## Persistence -/

/-- C1 (evaluation at the failing input): the block copies of the two bitset
arrays move `FIELD_HEIGHT` = 31 bytes, not 31 words.  Saving `midGame` and
loading into `zeroRam` restores rows 0 to 6, the three low bytes of row 7, and
nothing of rows 8 to 30, which keep the values of the loading state. -/
theorem save_load_bitsets_truncated :
    (save_then_load midGame zeroEeprom zeroRam).pacdots
        = List.replicate 7 2147483647 ++ [16777215] ++ List.replicate 23 0 ∧
      (save_then_load midGame zeroEeprom zeroRam).power_pellets
        = List.replicate 7 1073741825 ++ [1] ++ List.replicate 23 0 ∧
      midGame.pacdots.getD 30 0 = 2147483647 ∧
      (save_then_load midGame zeroEeprom zeroRam).pacdots.getD 30 0 = 0 ∧
      midGame.power_pellets.getD 30 0 = 1073741825 ∧
      (save_then_load midGame zeroEeprom zeroRam).power_pellets.getD 30 0 = 0 := by
  decide

/-- C2: after `save()` and `load()` into any other well-formed state, the
player position and direction, lives, power flag, score, high score and the
x, y and direction of the four ghosts are those of the saved state. -/
theorem save_load_entities_scores (s s' : Ram) (e : Eeprom) (hs : s.WF) (hs' : s'.WF) :
    (save_then_load s e s').pacman_x = s.pacman_x ∧
      (save_then_load s e s').pacman_y = s.pacman_y ∧
      (save_then_load s e s').pacman_direction = s.pacman_direction ∧
      (save_then_load s e s').lives = s.lives ∧
      (save_then_load s e s').power_active = s.power_active ∧
      (save_then_load s e s').score = s.score ∧
      (save_then_load s e s').highscore = s.highscore ∧
      (save_then_load s e s').ghost_x = s.ghost_x ∧
      (save_then_load s e s').ghost_y = s.ghost_y ∧
      (save_then_load s e s').ghost_direction = s.ghost_direction := by
  obtain ⟨-, -, -, -, -, -, -, -, hsc, hhs, hl, -, hpa, -, hpx, hpy, hpd,
    ⟨hgx, -⟩, ⟨hgy, -⟩, ⟨hgd, -⟩, -⟩ := hs
  obtain ⟨-, -, -, -, -, -, -, -, -, -, -, -, -, -, -, -, -,
    ⟨hgx', -⟩, ⟨hgy', -⟩, ⟨hgd', -⟩, -⟩ := hs'
  have h8 : U8 ≤ U16 := by decide
  have e1 : ∀ v, v < U8 → v % U16 % U8 = v := fun v hv => by
    rw [Nat.mod_eq_of_lt (lt_of_lt_of_le hv h8), Nat.mod_eq_of_lt hv]
  have e2 : ∀ v, v < U8 → v % U8 % U8 = v := fun v hv => by
    rw [Nat.mod_mod, Nat.mod_eq_of_lt hv]
  have e3 : ∀ v, v < U32 → v % U32 % U32 = v := fun v hv => by
    rw [Nat.mod_mod, Nat.mod_eq_of_lt hv]
  simp only [save_then_load, load, save, if_true]
  exact ⟨e1 _ hpx, e1 _ hpy, e2 _ hpd, e2 _ hl, e2 _ hpa, e3 _ hsc, e3 _ hhs,
    blockCopy_roundtrip _ _ _ _ hgx hgx', blockCopy_roundtrip _ _ _ _ hgy hgy',
    blockCopy_roundtrip _ _ _ _ hgd hgd'⟩

/-- Witness of C2 at `midGame`, saved over an empty EEPROM and loaded into
`zeroRam`. -/
theorem save_load_entities_scores_witness :
    (save_then_load midGame zeroEeprom zeroRam).pacman_x = midGame.pacman_x ∧
      (save_then_load midGame zeroEeprom zeroRam).pacman_y = midGame.pacman_y ∧
      (save_then_load midGame zeroEeprom zeroRam).pacman_direction
        = midGame.pacman_direction ∧
      (save_then_load midGame zeroEeprom zeroRam).lives = midGame.lives ∧
      (save_then_load midGame zeroEeprom zeroRam).power_active = midGame.power_active ∧
      (save_then_load midGame zeroEeprom zeroRam).score = midGame.score ∧
      (save_then_load midGame zeroEeprom zeroRam).highscore = midGame.highscore ∧
      (save_then_load midGame zeroEeprom zeroRam).ghost_x = midGame.ghost_x ∧
      (save_then_load midGame zeroEeprom zeroRam).ghost_y = midGame.ghost_y ∧
      (save_then_load midGame zeroEeprom zeroRam).ghost_direction
        = midGame.ghost_direction :=
  save_load_entities_scores midGame zeroRam zeroEeprom (by decide) (by decide)

/-- C3: when the write flag does not read as 1, `load()` leaves every variable
as it was. -/
theorem load_unwritten_noop (s : Ram) (e : Eeprom) (h : e.IsWritten ≠ 1) :
    load e s = s := by
  simp [load, h]

/-- Witness of C3: a record full of data with the flag cleared. -/
theorem load_unwritten_noop_witness :
    staleEeprom.IsWritten ≠ 1 ∧ staleEeprom.written_score = 120 ∧
      load staleEeprom zeroRam = zeroRam :=
  ⟨by decide, by decide, load_unwritten_noop zeroRam staleEeprom (by decide)⟩

/-! ## Power state -/

/-- A saved game with the power state off. -/
def calmGame : Ram :=
  { midGame with
    score := 60, power_active := 0, special_time_remaining := 0, ghost_kills := 0
    ghost_colours := [31, 35, 36, 32] }

/-- Inside the window `T ≤ t ≤ T + 15` the power-state block keeps the flag. -/
theorem power_check_keeps (t digit : Nat) (s : Ram)
    (hno : s.powered_period + 15 < U32) (ht : t ≤ s.powered_period + 15) :
    (power_check t digit s).2.power_active = s.power_active := by
  unfold power_check
  rw [Nat.mod_eq_of_lt hno]
  by_cases hp : s.power_active = 0
  · simp [hp]
  · simp [hp, Nat.not_lt.mpr ht]

/-- Past `T + 15` the power-state block clears the flag, zeroes the kill
counter and restores the four colours. -/
theorem power_check_expires (t digit : Nat) (s : Ram)
    (hon : s.power_active ≠ 0) (hno : s.powered_period + 15 < U32)
    (ht : s.powered_period + 15 < t) :
    (power_check t digit s).2.power_active = 0 ∧
      (power_check t digit s).2.ghost_kills = 0 ∧
      (∀ i, i < 4 → i < s.ghost_colours.length →
        (power_check t digit s).2.ghost_colours.getD i 0
          = s.ghost_original_colours.getD i 0) := by
  unfold power_check
  rw [Nat.mod_eq_of_lt hno]
  simp only [hon, ne_eq, not_false_eq_true, if_true, ht]
  refine ⟨trivial, trivial, ?_⟩
  intro i hi hlen
  have : i = 0 ∨ i = 1 ∨ i = 2 ∨ i = 3 := by omega
  rcases this with h | h | h | h <;> subst h <;>
    simp [List.getD_eq_getElem?_getD, List.getElem?_set, hlen]

/-- C4 (evaluation at the failing input): with power activated at `T = 7`, the
block evaluated at `t = T + 15 = 22` keeps `power_active` set and stores a
remaining time of 0; the flag is cleared only from `t = 23` on. -/
theorem power_still_active_at_deadline :
    midGame.power_active = 1 ∧ midGame.powered_period = 7 ∧
      (power_check 22 0 midGame).2.power_active = 1 ∧
      (power_check 22 0 midGame).2.special_time_remaining = 0 ∧
      (power_check 23 0 midGame).2.power_active = 0 := by
  decide

/-- C5 (evaluation at the failing input): `load()` of a record saved with the
power state off, into a state with the power state on, clears `power_active`
but keeps the kill counter at 1 and the four colours at their powered values. -/
theorem load_power_off_keeps_kills_and_colours :
    midGame.power_active = 1 ∧
      (load (save calmGame zeroEeprom) midGame).power_active = 0 ∧
      (load (save calmGame zeroEeprom) midGame).ghost_kills = 1 ∧
      (load (save calmGame zeroEeprom) midGame).ghost_colours = [34, 34, 34, 34] ∧
      (load (save calmGame zeroEeprom) midGame).ghost_original_colours
        = [31, 35, 36, 32] := by
  decide

/-! ## Score -/

/-- C6: `update_highscore()` leaves `highscore = max(highscore, score)` and
`score` unchanged; `init_score()` sets `score` to 0 and keeps `highscore`. -/
theorem update_highscore_max_init_score_zero (s : Ram) :
    (update_highscore s).highscore = max s.highscore s.score ∧
      (update_highscore s).score = s.score ∧
      (init_score s).score = 0 ∧
      (init_score s).highscore = s.highscore := by
  refine ⟨?_, ?_, rfl, rfl⟩
  · unfold update_highscore
    split
    · next h => simp [Nat.max_eq_right (Nat.le_of_lt h)]
    · next h => simp [Nat.max_eq_left (Nat.not_lt.mp h)]
  · unfold update_highscore
    split <;> rfl

/-- C7 (counterexample): `load()` of a record saved with high score 450, into a
state whose high score has since reached 900, lowers the high score. -/
theorem load_lowers_highscore :
    ¬ (({ midGame with highscore := 900 } : Ram).highscore ≤
        (ScoreOp.run ScoreOp.load
          ({ midGame with highscore := 900 }, save midGame zeroEeprom)).1.highscore) := by
  decide

/-- C7 (amended): `init_score`, `add_to_score`, `update_highscore` and `save`
never lower the high score; `load` sets it to the stored `written_highscore`
when the write flag reads as 1 and keeps it otherwise. -/
theorem highscore_after_op (op : ScoreOp) (s : Ram) (e : Eeprom) :
    if op.isLoad = true then
      (op.run (s, e)).1.highscore
        = (if e.IsWritten = 1 then e.written_highscore % U32 else s.highscore)
    else s.highscore ≤ (op.run (s, e)).1.highscore := by
  cases op with
  | init_score => simp [ScoreOp.isLoad, ScoreOp.run, init_score]
  | add_to_score v => simp [ScoreOp.isLoad, ScoreOp.run, add_to_score]
  | update_highscore =>
    have hle : s.highscore ≤ (update_highscore s).highscore := by
      unfold update_highscore
      split
      · next h => exact Nat.le_of_lt h
      · exact Nat.le_refl _
    simpa [ScoreOp.isLoad, ScoreOp.run] using hle
  | save => simp [ScoreOp.isLoad, ScoreOp.run]
  | load =>
    simp only [ScoreOp.isLoad, ScoreOp.run, load, if_true]
    split_ifs <;> rfl

/-- C9 (counterexample): at the largest 32-bit score, adding 1 wraps to 0. -/
theorem add_to_score_wraps :
    ¬ (({ midGame with score := 4294967295 } : Ram).score ≤
        (add_to_score 1 { midGame with score := 4294967295 }).score) := by
  decide

/-- C9 (amended): when `score + value` fits in 32 bits, `add_to_score(value)`
leaves the score at `score + value`, which is not below the old score. -/
theorem add_to_score_monotone (s : Ram) (v : Nat) (h : s.score + v < U32) :
    (add_to_score v s).score = s.score + v ∧ s.score ≤ (add_to_score v s).score := by
  simp [add_to_score, Nat.mod_eq_of_lt h]

/-- Witness of C9 (amended): score 120 plus 10. -/
theorem add_to_score_monotone_witness :
    midGame.score + 10 < U32 ∧ (add_to_score 10 midGame).score = midGame.score + 10 ∧
      midGame.score ≤ (add_to_score 10 midGame).score :=
  ⟨by decide, add_to_score_monotone midGame 10 (by decide)⟩

/-! ## The main loop -/

/-- The value of `CELL_EMPTY`. -/
def CELL_EMPTY : Int := -5

/-- A game module used to run the loop on concrete inputs: a new game gives
`MAX_LIVES` lives, every move of the pac-man eats a dot worth 10, every move of
ghost 0 catches the pac-man and costs a life, the game is over at 0 lives. -/
def demoOps : GameOps :=
  { initialise_game := fun s => { s with lives := MAX_LIVES }
    initialise_game_level := fun s => s
    move_pacman := fun s => add_to_score 10 s
    change_pacman_direction := fun d s => { s with pacman_direction := d }
    move_ghost := fun n s => if n = 0 then { s with lives := s.lives - 1 } else s
    is_game_over := fun s => decide (s.lives = 0)
    is_level_complete := fun _ => false
    what_is_in_dirn := fun _ _ _ _ => CELL_EMPTY }

/-- A pass with no button, no serial input and the joystick at rest, whose
clock reads `now`. -/
def idlePass (now : Nat) : PassInput :=
  { button := NO_BUTTON_PUSHED, adc := 0, serial := none, adc_new := (0, 0)
    pause := [], now := now, level_time := now }

/-- One turn of the loop of `main` (lines 79-83): `new_game(); play_game();
handle_game_over();`. -/
def main_turn (g : GameOps) (adc0 : Nat × Nat) (start : Nat) (passes : List PassInput)
    (adc1 : Nat × Nat) (s : Ram) (e : Eeprom) : Option (Ram × Eeprom) :=
  match play_game g start passes (new_game g adc0 s) e with
  | none => none
  | some r => some (handle_game_over g adc1 r.1, r.2)

/-- The score and high score of a result. -/
def scores (r : Option (Ram × Eeprom)) : Option (Nat × Nat) :=
  r.map (fun p => (p.1.score, p.1.highscore))

/-- Three passes at 400, 800 and 1200 ms. -/
def threePasses : List PassInput := [idlePass 400, idlePass 800, idlePass 1200]

/-- Locals of `play_game` with every timer at 0. -/
def zeroLocals : Locals :=
  { digit := 0, current_time := 0, pacman_last_move_time := 0
    ghost0_last_move_time := 0, ghost1_last_move_time := 0
    ghost2_last_move_time := 0, ghost3_last_move_time := 0
    characters_into_escape_sequence := 0 }

/-- C8 (evaluation at the failing input): in each of three passes the pac-man
eats a dot (+10) and ghost 0 then takes a life.  `update_highscore()` runs only
at the top of a pass, so `play_game` returns with score 30 and high score 20,
and the `new_game()` of `handle_game_over` zeroes the score with the high
score still 20. -/
theorem final_pass_points_not_in_highscore :
    scores (play_game demoOps 0 threePasses (new_game demoOps (0, 0) zeroRam) zeroEeprom)
        = some (30, 20) ∧
      scores (main_turn demoOps (0, 0) 0 threePasses (0, 0) zeroRam zeroEeprom)
        = some (0, 20) := by
  decide

/-! ## Game over stops the movement section -/

/-- In a trace that grew by one entry, an entry flagged game over that is not
among the old entries is the last one. -/
theorem flagged_entry_is_last (old : List (Mover × Bool)) (a : Mover × Bool)
    (h : ∀ x ∈ old, x.2 = false) (pre : List (Mover × Bool)) (m : Mover)
    (post : List (Mover × Bool)) (heq : old ++ [a] = pre ++ (m, true) :: post) :
    post = [] := by
  by_contra hne
  have hsplit : post = post.dropLast ++ [post.getLast hne] :=
    (List.dropLast_append_getLast hne).symm
  rw [hsplit, ← List.cons_append, ← List.append_assoc] at heq
  have hold : old = pre ++ (m, true) :: post.dropLast :=
    List.append_inj_left' heq rfl
  have hmem : (m, true) ∈ old := by rw [hold]; simp
  have := h _ hmem
  simp at this

/-- The property kept by every block of the movement section: while the game
is not over no recorded move is flagged, and a flagged move is the last one. -/
def TraceOk (g : GameOps) (r : MoveState) : Prop :=
  (g.is_game_over r.2.1 = false → ∀ x ∈ r.2.2, x.2 = false) ∧
  (∀ pre m post, r.2.2 = pre ++ (m, true) :: post → post = [])

theorem ghost_block_ok (g : GameOps) (now n : Nat) (last : Locals → Nat) (period : Nat)
    (setLast : Locals → Locals) (r : MoveState) (h : TraceOk g r) :
    TraceOk g (ghost_block g now n last period setLast r) := by
  unfold ghost_block
  split
  · next hc =>
    simp only [Bool.and_eq_true, Bool.not_eq_true'] at hc
    have hold := h.1 hc.1
    constructor
    · intro hover x hx
      simp only [List.mem_append, List.mem_singleton] at hx
      rcases hx with hx | hx
      · exact hold x hx
      · rw [hx]; exact hover
    · intro pre m post heq
      exact flagged_entry_is_last _ _ hold pre m post heq
  · exact h

theorem pacman_block_ok (g : GameOps)
    (hlevel : ∀ s, g.is_game_over s = true →
      g.is_game_over (g.initialise_game_level s) = true)
    (now level_time : Nat) (r : MoveState) (h : TraceOk g r) :
    TraceOk g (pacman_block g now level_time r) := by
  unfold pacman_block
  split
  · next hc =>
    simp only [Bool.and_eq_true, Bool.not_eq_true'] at hc
    have hold := h.1 hc.1
    simp only
    split
    · constructor
      · intro hover x hx
        simp only [List.mem_append, List.mem_singleton] at hx
        rcases hx with hx | hx
        · exact hold x hx
        · rw [hx]
          cases hb : g.is_game_over (g.move_pacman r.2.1) with
          | false => rfl
          | true =>
            have := hlevel _ hb
            simp only at hover
            rw [this] at hover
            exact absurd hover (by simp)
      · intro pre m post heq
        exact flagged_entry_is_last _ _ hold pre m post heq
    · constructor
      · intro hover x hx
        simp only [List.mem_append, List.mem_singleton] at hx
        rcases hx with hx | hx
        · exact hold x hx
        · rw [hx]; exact hover
      · intro pre m post heq
        exact flagged_entry_is_last _ _ hold pre m post heq
  · exact h

theorem ghost_block_over (g : GameOps) (now n : Nat) (last : Locals → Nat) (period : Nat)
    (setLast : Locals → Locals) (r : MoveState) (h : g.is_game_over r.2.1 = true) :
    ghost_block g now n last period setLast r = r := by
  simp [ghost_block, h]

theorem pacman_block_over (g : GameOps) (now level_time : Nat) (r : MoveState)
    (h : g.is_game_over r.2.1 = true) : pacman_block g now level_time r = r := by
  simp [pacman_block, h]

/-- C10: in the movement section of a pass, whatever the clock and the timers,
(1) if `is_game_over()` holds on entry, no move is invoked and the variables
are unchanged; (2) a move after which `is_game_over()` holds is the last move
invoked in the pass.  The level initialisation of `game.c` is assumed not to
end a game-over state (it does not touch the lives). -/
theorem game_over_stops_moves (g : GameOps)
    (hlevel : ∀ s, g.is_game_over s = true →
      g.is_game_over (g.initialise_game_level s) = true)
    (now level_time : Nat) (l : Locals) (s : Ram) :
    (g.is_game_over s = true →
        (movement g now level_time l s).2.2 = [] ∧
        (movement g now level_time l s).2.1 = s) ∧
      (∀ pre m post, (movement g now level_time l s).2.2 = pre ++ (m, true) :: post →
        post = []) := by
  constructor
  · intro hover
    have h0 : pacman_block g now level_time ({ l with current_time := now }, s, [])
        = ({ l with current_time := now }, s, []) :=
      pacman_block_over g now level_time _ hover
    simp only [movement, h0]
    rw [ghost_block_over g now 0 _ _ _ _ hover, ghost_block_over g now 1 _ _ _ _ hover,
      ghost_block_over g now 2 _ _ _ _ hover, ghost_block_over g now 3 _ _ _ _ hover]
    exact ⟨rfl, rfl⟩
  · have h0 : TraceOk g (({ l with current_time := now }, s, []) : MoveState) :=
      ⟨fun _ x hx => by simp at hx, fun pre m post heq => by simp at heq⟩
    have h1 := pacman_block_ok g hlevel now level_time _ h0
    have h2 := ghost_block_ok g now 0 Locals.ghost0_last_move_time 400
      (fun l => { l with ghost0_last_move_time := now }) _ h1
    have h3 := ghost_block_ok g now 1 Locals.ghost1_last_move_time 500
      (fun l => { l with ghost1_last_move_time := now }) _ h2
    have h4 := ghost_block_ok g now 2 Locals.ghost2_last_move_time 550
      (fun l => { l with ghost2_last_move_time := now }) _ h3
    have h5 := ghost_block_ok g now 3 Locals.ghost3_last_move_time 600
      (fun l => { l with ghost3_last_move_time := now }) _ h4
    exact h5.2

/-- Witness of C10 with `demoOps`: on the last life with every timer due, the
pac-man moves, ghost 0 ends the game, and ghosts 1 to 3 are not moved; from a
state with no lives nothing is moved. -/
theorem game_over_stops_moves_witness :
    (movement demoOps 1200 0 zeroLocals { zeroRam with lives := 1 }).2.2
        = [(Mover.pacman, false), (Mover.ghost 0, true)] ∧
      demoOps.is_game_over zeroRam = true ∧
      ((demoOps.is_game_over zeroRam = true →
          (movement demoOps 1200 0 zeroLocals zeroRam).2.2 = [] ∧
          (movement demoOps 1200 0 zeroLocals zeroRam).2.1 = zeroRam) ∧
        (∀ pre m post,
          (movement demoOps 1200 0 zeroLocals zeroRam).2.2 = pre ++ (m, true) :: post →
          post = [])) :=
  ⟨by decide, by decide,
    game_over_stops_moves demoOps (fun _ h => h) 1200 0 zeroLocals zeroRam⟩

/-! ## Joystick -/

/-- Joystick pushed up only: `x` at its resting value, `y` above it. -/
def stickUp : Ram :=
  { midGame with x := 512, resting_x := 512, y := 700, resting_y := 512 }

/-- When `valid_direction` requests a direction, its resulting state is that of
`change_pacman_direction` with the requested direction. -/
theorem valid_direction_of_requested (g : GameOps) (s0 : Ram) (d : Nat)
    (h : (valid_direction_calls g s0).requested = some d) :
    valid_direction g s0 = g.change_pacman_direction d { s0 with joystick_rest := 0 } := by
  unfold valid_direction_calls at h
  unfold valid_direction
  simp only at h ⊢
  split_ifs at h ⊢ <;> simp_all

/-- Away from the branch "x at rest, y above rest", a requested direction is
the queried one. -/
theorem valid_direction_calls_agree (g : GameOps) (s0 : Ram)
    (h : ¬ (s0.x = s0.resting_x ∧ s0.y > s0.resting_y)) (d : Nat)
    (hd : (valid_direction_calls g s0).requested = some d) :
    (valid_direction_calls g s0).queried = some d := by
  unfold valid_direction_calls at hd ⊢
  simp only at hd ⊢
  split_ifs at hd ⊢ <;>
    first | exact hd | exact absurd ⟨by omega, by omega⟩ h

/-- C11 (evaluation at the failing input): with the joystick pushed up only and
no wall above, `valid_direction` queries the cell in direction `DIRN_UP` (1)
and passes `DIRN_RIGHT` (2) to `change_pacman_direction`. -/
theorem up_query_requests_right :
    valid_direction_calls demoOps stickUp
        = { queried := some DIRN_UP, requested := some DIRN_RIGHT } ∧
      DIRN_UP ≠ DIRN_RIGHT ∧
      (valid_direction demoOps stickUp).pacman_direction = DIRN_RIGHT := by
  decide

/-! ## Save-data indicator -/

/-- A record holding saved data whose flag byte reads 255, the value of an
erased EEPROM cell. -/
def erasedFlagEeprom : Eeprom :=
  { save midGame zeroEeprom with IsWritten := 255 }

/-- For a flag byte of 0 or 1 the indicator reports available exactly when
`load()` restores. -/
theorem save_data_available_agrees_low (e : Eeprom) (h : e.IsWritten ≤ 1) :
    save_data_available e = "Save Data Available" ↔ e.IsWritten = 1 := by
  unfold save_data_available
  have h01 : e.IsWritten = 0 ∨ e.IsWritten = 1 := by omega
  rcases h01 with h0 | h1
  · simp [h0]
  · simp [h1]

/-- C12 (evaluation at the failing input): with the flag byte at 255 the
indicator reports "Save Data Available", yet `load()` restores nothing: the
variables stay as they were although the record holds another game. -/
theorem indicator_available_but_load_noop :
    save_data_available erasedFlagEeprom = "Save Data Available" ∧
      erasedFlagEeprom.written_score = 120 ∧
      load erasedFlagEeprom zeroRam = zeroRam ∧
      load erasedFlagEeprom calmGame = calmGame := by
  decide

end Pacman
